import Mathlib

/-!
Verification of the grid/layout composition engine and guide-overlay
calculator of the passport photo sheet application.

The geometry performed by the JavaScript source is plain arithmetic on
numbers; it is embedded here over the rationals, so every computation of
the source is represented exactly.  The definitions below follow the
source files:

* `src/js/modules/canvas-renderer.js` (class `CanvasRenderer` and the
  bundled layout configuration module with `LAYOUTS`, `getLayout`,
  `getDPI`, `calculateCanvasDimensions`),
* `src/js/modules/guidelines-manager.js` (class `GuidelinesManager`,
  single `canvasSize` variant),
* `src/unnamed/part_009` (class `GuidelinesManager`, width/height
  variant with `render2x2Guide` and `renderDigitalFormatGuide`).

Drawing calls are modelled by the geometric data they receive: each
`drawImage(image, x, y, size, size)` call becomes one `Placement`, and
each `ellipse(cx, cy, rx, ry, ...)` call becomes one `Ellipse`.
-/

namespace PassportPhotoSheet

/-- `PHOTO_SIZE_INCHES` from the layout configuration module: the fixed
square passport photo side length in inches. -/
def PHOTO_SIZE_INCHES : ℚ := 2

/-- A layout entry as consumed by `CanvasRenderer.createComposite`:
physical sheet size in inches, grid arrangement, advertised photo count,
and the optional custom-spacing configuration read by
`createCustomSpacingComposite`.  The entries of the static `LAYOUTS`
table carry neither a `customSpacing` flag nor a `spacingType`, which is
modelled by the defaults `false` and `none`. -/
structure Layout where
  width : ℚ
  height : ℚ
  cols : ℕ
  rows : ℕ
  photos : ℕ
  customSpacing : Bool := false
  spacingType : Option String := none
deriving DecidableEq

/-- The `4x6` entry of the static `LAYOUTS` table. -/
def layout4x6 : Layout :=
  { width := 4, height := 6, cols := 2, rows := 3, photos := 6 }

/-- The `5x7` entry of the static `LAYOUTS` table. -/
def layout5x7 : Layout :=
  { width := 5, height := 7, cols := 2, rows := 3, photos := 6 }

/-- The `8x10` entry of the static `LAYOUTS` table. -/
def layout8x10 : Layout :=
  { width := 8, height := 10, cols := 4, rows := 5, photos := 20 }

/-- The static `LAYOUTS` table, keyed by sheet-size identifier. -/
def LAYOUTS : List (String × Layout) :=
  [("4x6", layout4x6), ("5x7", layout5x7), ("8x10", layout8x10)]

/-- The three presets of the static table, as a plain list. -/
def staticLayouts : List Layout := [layout4x6, layout5x7, layout8x10]

/-- `getLayout(sizeKey)`: `LAYOUTS[sizeKey] || LAYOUTS[4x6]` — table
lookup with the `4x6` preset as fallback for unknown keys. -/
def getLayout (sizeKey : String) : Layout :=
  (LAYOUTS.lookup sizeKey).getD layout4x6

/-- The `DPI_SETTINGS` table: `high = 300`, `medium = 200`. -/
def DPI_SETTINGS : List (String × ℕ) := [("high", 300), ("medium", 200)]

/-- `getDPI(quality)`: `DPI_SETTINGS[quality] || DPI_SETTINGS.high` —
table lookup with the high-quality value 300 as fallback. -/
def getDPI (quality : String) : ℕ :=
  (DPI_SETTINGS.lookup quality).getD 300

/-- Result of `calculateCanvasDimensions`. -/
structure Dimensions where
  width : ℚ
  height : ℚ
  photoSize : ℚ
deriving DecidableEq

/-- `calculateCanvasDimensions(layout, dpi)` from the layout
configuration module. -/
def calculateCanvasDimensions (layout : Layout) (dpi : ℚ) : Dimensions :=
  { width := layout.width * dpi
    height := layout.height * dpi
    photoSize := PHOTO_SIZE_INCHES * dpi }

/-- The destructured `options` argument of `createComposite`, with the
source defaults `gapEnabled = false`, `gapSize = 0.05`,
`borderEnabled = false`. -/
structure Options where
  gapEnabled : Bool := false
  gapSize : ℚ := 1/20
  borderEnabled : Bool := false
deriving DecidableEq

/-- The default options object (all fields at their source defaults). -/
def optsDefault : Options := {}

/-- One `drawImage(image, x, y, size, size)` call: the top-left pixel
offset and the square cell side length. -/
structure Placement where
  x : ℚ
  y : ℚ
  sizePx : ℚ
deriving DecidableEq

/-- `gapSizePx = gapEnabled ? gapSize * dpi : 0` from
`createComposite`. -/
def gapSizePx (opts : Options) (dpi : ℚ) : ℚ :=
  if opts.gapEnabled then opts.gapSize * dpi else 0

/-- `totalPhotosWidth = (layout.cols * photoSizePx) + ((layout.cols - 1)
* gapSizePx)` from the standard grid branch of `createComposite`. -/
def totalPhotosWidth (layout : Layout) (dpi : ℚ) (opts : Options) : ℚ :=
  (layout.cols : ℚ) * (calculateCanvasDimensions layout dpi).photoSize
    + ((layout.cols : ℚ) - 1) * gapSizePx opts dpi

/-- `totalPhotosHeight = (layout.rows * photoSizePx) + ((layout.rows -
1) * gapSizePx)` from the standard grid branch of `createComposite`. -/
def totalPhotosHeight (layout : Layout) (dpi : ℚ) (opts : Options) : ℚ :=
  (layout.rows : ℚ) * (calculateCanvasDimensions layout dpi).photoSize
    + ((layout.rows : ℚ) - 1) * gapSizePx opts dpi

/-- `startX = (canvasWidth - totalPhotosWidth) / 2` from the standard
grid branch of `createComposite`. -/
def startX (layout : Layout) (dpi : ℚ) (opts : Options) : ℚ :=
  ((calculateCanvasDimensions layout dpi).width - totalPhotosWidth layout dpi opts) / 2

/-- `startY = (canvasHeight - totalPhotosHeight) / 2` from the standard
grid branch of `createComposite`. -/
def startY (layout : Layout) (dpi : ℚ) (opts : Options) : ℚ :=
  ((calculateCanvasDimensions layout dpi).height - totalPhotosHeight layout dpi opts) / 2

/-- The nested `for (row) for (col)` draw loop shared by the standard
grid branch, the vertical-centered branch and the grid-aligned branch:
cell `(row, col)` is drawn at `(sx + col * (cell + gX), sy + row *
(cell + gY))`.  The uniform and vertical-centered branches use the same
gap on both axes; the grid-aligned branch uses distinct column and row
gaps. -/
def gridPlacements (cols rows : ℕ) (sx sy cell gX gY : ℚ) : List Placement :=
  (List.range rows).flatMap (fun (row : ℕ) =>
    (List.range cols).map (fun (col : ℕ) =>
      { x := sx + (col : ℚ) * (cell + gX)
        y := sy + (row : ℚ) * (cell + gY)
        sizePx := cell }))

/-- `totalPhotosWidth = (layout.cols * photoSizePx) + gapSizePx` from
the vertical-centered branch of `createCustomSpacingComposite` (note:
a single gap term, unlike the standard grid branch). -/
def vcTotalWidth (layout : Layout) (photoSize gap : ℚ) : ℚ :=
  (layout.cols : ℚ) * photoSize + gap

/-- `totalPhotosHeight = (layout.rows * photoSizePx) + gapSizePx` from
the vertical-centered branch of `createCustomSpacingComposite` (note:
a single gap term regardless of the number of rows). -/
def vcTotalHeight (layout : Layout) (photoSize gap : ℚ) : ℚ :=
  (layout.rows : ℚ) * photoSize + gap

/-- `startX = (canvasWidth - totalPhotosWidth) / 2` from the
vertical-centered branch of `createCustomSpacingComposite`. -/
def vcStartX (layout : Layout) (dpi photoSize gap : ℚ) : ℚ :=
  (layout.width * dpi - vcTotalWidth layout photoSize gap) / 2

/-- `startY = (canvasHeight - totalPhotosHeight) / 2` from the
vertical-centered branch of `createCustomSpacingComposite`. -/
def vcStartY (layout : Layout) (dpi photoSize gap : ℚ) : ℚ :=
  (layout.height * dpi - vcTotalHeight layout photoSize gap) / 2

/-- `CanvasRenderer.createCustomSpacingComposite(image, layout, dpi,
photoSizePx, gapSizePx, ...)` reduced to the list of `drawImage`
placements it emits.  The three recognized `spacingType` values select a
branch; any other value matches no branch and the routine draws
nothing. -/
def createCustomSpacingPlacements (layout : Layout) (dpi photoSize gap : ℚ) :
    List Placement :=
  if layout.spacingType = some "vertical-apart" then
    let canvasWidth := layout.width * dpi
    let topMargin := (1/2 : ℚ) * dpi
    let middleGap := (1 : ℚ) * dpi
    let x := (canvasWidth - photoSize) / 2
    (List.range layout.rows).map (fun (row : ℕ) =>
      { x := x
        y := topMargin + (row : ℚ) * (photoSize + middleGap)
        sizePx := photoSize })
  else if layout.spacingType = some "vertical-centered" then
    gridPlacements layout.cols layout.rows
      (vcStartX layout dpi photoSize gap) (vcStartY layout dpi photoSize gap)
      photoSize gap gap
  else if layout.spacingType = some "grid-aligned" then
    let leftMargin := (1/4 : ℚ) * dpi
    let topMargin := (1/4 : ℚ) * dpi
    let colGap := (1/2 : ℚ) * dpi
    let rowGap := (1/4 : ℚ) * dpi
    gridPlacements layout.cols layout.rows leftMargin topMargin photoSize colGap rowGap
  else []

/-- `CanvasRenderer.createComposite(image, layout, dpi, options)`
reduced to the list of `drawImage` placements it emits: layouts flagged
`customSpacing` are delegated to `createCustomSpacingComposite`, every
other layout is drawn as the centered uniform grid. -/
def createCompositePlacements (layout : Layout) (dpi : ℚ) (opts : Options) :
    List Placement :=
  let dims := calculateCanvasDimensions layout dpi
  let gap := gapSizePx opts dpi
  if layout.customSpacing then
    createCustomSpacingPlacements layout dpi dims.photoSize gap
  else
    gridPlacements layout.cols layout.rows
      (startX layout dpi opts) (startY layout dpi opts) dims.photoSize gap gap

/-- An axis-aligned rectangle given by its edge coordinates. -/
structure Rect where
  left : ℚ
  top : ℚ
  right : ℚ
  bottom : ℚ
deriving DecidableEq

/-- `lineWidth = Math.max(0.5, dpi / 150)` from
`CanvasRenderer.drawPhotoBorder`. -/
def borderLineWidth (dpi : ℚ) : ℚ := max (1/2) (dpi / 150)

/-- The rectangle path passed to `strokeRect` by `drawPhotoBorder`:
offset by half the line width inward from the cell origin, with side
`size - lineWidth`. -/
def photoBorderPath (x y size dpi : ℚ) : Rect :=
  let lw := borderLineWidth dpi
  let borderOffset := lw / 2
  { left := x + borderOffset
    top := y + borderOffset
    right := x + borderOffset + (size - lw)
    bottom := y + borderOffset + (size - lw) }

/-- Outer extent of a stroked rectangle path: a canvas stroke of width
`lw` extends half a line width to each side of the path. -/
def strokeOuterRect (r : Rect) (lw : ℚ) : Rect :=
  { left := r.left - lw / 2
    top := r.top - lw / 2
    right := r.right + lw / 2
    bottom := r.bottom + lw / 2 }

/-- One `ctx.ellipse(cx, cy, rx, ry, 0, 0, 2 * PI)` call. -/
structure Ellipse where
  centerX : ℚ
  centerY : ℚ
  radiusX : ℚ
  radiusY : ℚ
deriving DecidableEq

/-- The face-guide geometry computed by a `GuidelinesManager` render:
the three concentric head-height ovals and the crown line of the ideal
oval. -/
structure FaceGuide where
  minOval : Ellipse
  idealOval : Ellipse
  maxOval : Ellipse
  idealCrownY : ℚ
deriving DecidableEq

/-- `GuidelinesManager.render2x2Guide` from `src/unnamed/part_009`:
2x2-inch mode face guide.  Head-height fractions 0.50 / 0.60 / 0.6875
of the canvas height, eye line at 0.375 of the height, radiusX = 0.72 *
radiusY, all three ovals drawn at `(centerX, idealCenterY)`. -/
def render2x2Guide (canvasWidth canvasHeight : ℚ) : FaceGuide :=
  let centerX := canvasWidth / 2
  let minHeadHeight : ℚ := 1/2
  let idealHeadHeight : ℚ := 3/5
  let maxHeadHeight : ℚ := 11/16
  let eyePositionFromTop : ℚ := 3/8
  let eyesY := canvasHeight * eyePositionFromTop
  let eyesToCrownPercent := idealHeadHeight / 3
  let idealCrownY := eyesY - canvasHeight * eyesToCrownPercent
  let idealCenterY := idealCrownY + canvasHeight * idealHeadHeight / 2
  let minRadiusY := canvasHeight * (minHeadHeight / 2)
  let idealRadiusY := canvasHeight * (idealHeadHeight / 2)
  let maxRadiusY := canvasHeight * (maxHeadHeight / 2)
  let minRadiusX := minRadiusY * (18/25)
  let idealRadiusX := idealRadiusY * (18/25)
  let maxRadiusX := maxRadiusY * (18/25)
  { minOval := ⟨centerX, idealCenterY, minRadiusX, minRadiusY⟩
    idealOval := ⟨centerX, idealCenterY, idealRadiusX, idealRadiusY⟩
    maxOval := ⟨centerX, idealCenterY, maxRadiusX, maxRadiusY⟩
    idealCrownY := idealCrownY }

/-- `GuidelinesManager.renderDigitalFormatGuide` from
`src/unnamed/part_009`: 630x810 digital mode face guide.  Head-height
fractions 0.70 / 0.75 / 0.80 of the canvas height, ideal crown at 0.10
of the height from the top, radiusX = 0.72 * radiusY, all three ovals
drawn at `(centerX, idealCenterY)`. -/
def renderDigitalFormatGuide (canvasWidth canvasHeight : ℚ) : FaceGuide :=
  let centerX := canvasWidth / 2
  let minHeadHeight : ℚ := 7/10
  let idealHeadHeight : ℚ := 3/4
  let maxHeadHeight : ℚ := 4/5
  let idealTopMargin : ℚ := 1/10
  let idealCrownY := canvasHeight * idealTopMargin
  let idealCenterY := idealCrownY + canvasHeight * idealHeadHeight / 2
  let minRadiusY := canvasHeight * (minHeadHeight / 2)
  let idealRadiusY := canvasHeight * (idealHeadHeight / 2)
  let maxRadiusY := canvasHeight * (maxHeadHeight / 2)
  let minRadiusX := minRadiusY * (18/25)
  let idealRadiusX := idealRadiusY * (18/25)
  let maxRadiusX := maxRadiusY * (18/25)
  { minOval := ⟨centerX, idealCenterY, minRadiusX, minRadiusY⟩
    idealOval := ⟨centerX, idealCenterY, idealRadiusX, idealRadiusY⟩
    maxOval := ⟨centerX, idealCenterY, maxRadiusX, maxRadiusY⟩
    idealCrownY := idealCrownY }

/-- The face-guide geometry of `GuidelinesManager.render` from
`src/js/modules/guidelines-manager.js` (square `canvasSize` variant).
The formulas for the radii and for `idealCenterY` match the 2x2 mode of
`part_009`, but every `ctx.ellipse` call in this variant passes
`idealCenterY` as BOTH the x and the y center coordinate, so the ovals
are drawn at `(idealCenterY, idealCenterY)` instead of
`(canvasSize / 2, idealCenterY)`. -/
def renderModulesFaceGuide (canvasSize : ℚ) : FaceGuide :=
  let minHeadHeight : ℚ := 1/2
  let idealHeadHeight : ℚ := 3/5
  let maxHeadHeight : ℚ := 11/16
  let eyePositionFromTop : ℚ := 3/8
  let eyesY := canvasSize * eyePositionFromTop
  let eyesToCrownPercent := idealHeadHeight / 3
  let idealCrownY := eyesY - canvasSize * eyesToCrownPercent
  let idealCenterY := idealCrownY + canvasSize * idealHeadHeight / 2
  let minRadiusY := canvasSize * (minHeadHeight / 2)
  let idealRadiusY := canvasSize * (idealHeadHeight / 2)
  let maxRadiusY := canvasSize * (maxHeadHeight / 2)
  let minRadiusX := minRadiusY * (18/25)
  let idealRadiusX := idealRadiusY * (18/25)
  let maxRadiusX := maxRadiusY * (18/25)
  { minOval := ⟨idealCenterY, idealCenterY, minRadiusX, minRadiusY⟩
    idealOval := ⟨idealCenterY, idealCenterY, idealRadiusX, idealRadiusY⟩
    maxOval := ⟨idealCenterY, idealCenterY, maxRadiusX, maxRadiusY⟩
    idealCrownY := idealCrownY }

/-- Scaling a placement by a factor, used to state linearity in the
DPI. -/
def scalePlacement (k : ℚ) (p : Placement) : Placement :=
  ⟨k * p.x, k * p.y, k * p.sizePx⟩

/-- A layout flagged `customSpacing` whose `spacingType` matches none of
the three recognized strategy names. -/
def bogusLayout : Layout :=
  { width := 4, height := 6, cols := 2, rows := 3, photos := 6
    customSpacing := true, spacingType := some "bogus" }

/-- A customSpacing layout whose `photos` field disagrees with
`cols * rows`. -/
def mismatchLayout : Layout :=
  { width := 5, height := 7, cols := 2, rows := 3, photos := 5
    customSpacing := true, spacingType := some "grid-aligned" }

/-- A vertical-centered layout with 2 columns and 3 rows. -/
def vcLayout3 : Layout :=
  { width := 4, height := 8, cols := 2, rows := 3, photos := 6
    customSpacing := true, spacingType := some "vertical-centered" }

/-- A vertical-centered layout with 2 columns and 2 rows. -/
def vcLayout2 : Layout :=
  { width := 4, height := 6, cols := 2, rows := 2, photos := 4
    customSpacing := true, spacingType := some "vertical-centered" }

/-! ## Helper lemmas -/

/-- The draw loop emits exactly `rows * cols` placements. -/
theorem gridPlacements_length (cols rows : ℕ) (sx sy cell gX gY : ℚ) :
    (gridPlacements cols rows sx sy cell gX gY).length = rows * cols := by
  simp [gridPlacements, List.length_flatMap, Function.comp_def]

/-- Membership characterisation of the draw loop. -/
theorem mem_gridPlacements (p : Placement) (cols rows : ℕ) (sx sy cell gX gY : ℚ) :
    p ∈ gridPlacements cols rows sx sy cell gX gY ↔
      ∃ row, row < rows ∧ ∃ col, col < cols ∧
        p = ⟨sx + (col : ℚ) * (cell + gX), sy + (row : ℚ) * (cell + gY), cell⟩ := by
  constructor
  · intro hp
    unfold gridPlacements at hp
    rw [List.mem_flatMap] at hp
    obtain ⟨row, hrow, hp⟩ := hp
    rw [List.mem_map] at hp
    obtain ⟨col, hcol, rfl⟩ := hp
    rw [List.mem_range] at hrow
    rw [List.mem_range] at hcol
    exact ⟨row, hrow, col, hcol, rfl⟩
  · rintro ⟨row, hrow, col, hcol, rfl⟩
    unfold gridPlacements
    rw [List.mem_flatMap]
    exact ⟨row, List.mem_range.mpr hrow,
      List.mem_map.mpr ⟨col, List.mem_range.mpr hcol, rfl⟩⟩

/-- Scaling every geometric input of the draw loop scales every emitted
placement. -/
theorem gridPlacements_scale (k : ℚ) (cols rows : ℕ) (sx sy cell gX gY : ℚ) :
    gridPlacements cols rows (k * sx) (k * sy) (k * cell) (k * gX) (k * gY)
      = (gridPlacements cols rows sx sy cell gX gY).map (scalePlacement k) := by
  unfold gridPlacements
  rw [List.map_flatMap]
  congr 1
  funext row
  rw [List.map_map]
  congr 1
  funext col
  simp only [Function.comp_apply, scalePlacement, Placement.mk.injEq]
  refine ⟨by ring, by ring, by ring_nf⟩

/-- The effective gap is linear in the DPI. -/
theorem gapSizePx_double (opts : Options) (dpi : ℚ) :
    gapSizePx opts (2 * dpi) = 2 * gapSizePx opts dpi := by
  unfold gapSizePx
  cases h : opts.gapEnabled
  · simp
  · simp
    ring

/-- A layout without the `customSpacing` flag is rendered as the
centered uniform grid. -/
theorem createCompositePlacements_uniform (layout : Layout) (dpi : ℚ) (opts : Options)
    (hcs : layout.customSpacing = false) :
    createCompositePlacements layout dpi opts
      = gridPlacements layout.cols layout.rows
          (startX layout dpi opts) (startY layout dpi opts)
          ((calculateCanvasDimensions layout dpi).photoSize)
          (gapSizePx opts dpi) (gapSizePx opts dpi) := by
  unfold createCompositePlacements
  rw [hcs]
  rfl

/-- A layout with the `customSpacing` flag is delegated to
`createCustomSpacingComposite`. -/
theorem createCompositePlacements_custom (layout : Layout) (dpi : ℚ) (opts : Options)
    (hcs : layout.customSpacing = true) :
    createCompositePlacements layout dpi opts
      = createCustomSpacingPlacements layout dpi
          ((calculateCanvasDimensions layout dpi).photoSize) (gapSizePx opts dpi) := by
  unfold createCompositePlacements
  rw [hcs]
  rfl

/-- The vertical-apart branch of `createCustomSpacingComposite`. -/
theorem customSpacing_vertical_apart (layout : Layout) (dpi photoSize gap : ℚ)
    (h : layout.spacingType = some "vertical-apart") :
    createCustomSpacingPlacements layout dpi photoSize gap
      = (List.range layout.rows).map (fun (row : ℕ) =>
          { x := (layout.width * dpi - photoSize) / 2
            y := (1/2 : ℚ) * dpi + (row : ℚ) * (photoSize + (1 : ℚ) * dpi)
            sizePx := photoSize }) := by
  unfold createCustomSpacingPlacements
  rw [h]
  rfl

/-- The vertical-centered branch of `createCustomSpacingComposite`. -/
theorem customSpacing_vertical_centered (layout : Layout) (dpi photoSize gap : ℚ)
    (h : layout.spacingType = some "vertical-centered") :
    createCustomSpacingPlacements layout dpi photoSize gap
      = gridPlacements layout.cols layout.rows
          (vcStartX layout dpi photoSize gap) (vcStartY layout dpi photoSize gap)
          photoSize gap gap := by
  unfold createCustomSpacingPlacements
  rw [h]
  rfl

/-- The grid-aligned branch of `createCustomSpacingComposite`. -/
theorem customSpacing_grid_aligned (layout : Layout) (dpi photoSize gap : ℚ)
    (h : layout.spacingType = some "grid-aligned") :
    createCustomSpacingPlacements layout dpi photoSize gap
      = gridPlacements layout.cols layout.rows
          ((1/4 : ℚ) * dpi) ((1/4 : ℚ) * dpi)
          photoSize ((1/2 : ℚ) * dpi) ((1/4 : ℚ) * dpi) := by
  unfold createCustomSpacingPlacements
  rw [h]
  rfl

/-- A custom-spacing layout whose `spacingType` matches no branch emits
no placements. -/
theorem customSpacing_unrecognized (layout : Layout) (dpi photoSize gap : ℚ)
    (h1 : layout.spacingType ≠ some "vertical-apart")
    (h2 : layout.spacingType ≠ some "vertical-centered")
    (h3 : layout.spacingType ≠ some "grid-aligned") :
    createCustomSpacingPlacements layout dpi photoSize gap = [] := by
  unfold createCustomSpacingPlacements
  rw [if_neg h1, if_neg h2, if_neg h3]

/-- Bounds for the draw loop when the occupied block fits the canvas. -/
theorem gridPlacements_bounds (cols rows : ℕ) (sx sy cell gX gY cw ch : ℚ)
    (hsx : 0 ≤ sx) (hsy : 0 ≤ sy) (hcell : 0 ≤ cell) (hgX : 0 ≤ gX) (hgY : 0 ≤ gY)
    (hW : sx + (cols : ℚ) * cell + ((cols : ℚ) - 1) * gX ≤ cw)
    (hH : sy + (rows : ℚ) * cell + ((rows : ℚ) - 1) * gY ≤ ch) :
    ∀ p ∈ gridPlacements cols rows sx sy cell gX gY,
      0 ≤ p.x ∧ 0 ≤ p.y ∧ p.x + p.sizePx ≤ cw ∧ p.y + p.sizePx ≤ ch := by
  intro p hp
  rw [mem_gridPlacements] at hp
  obtain ⟨row, hrow, col, hcol, rfl⟩ := hp
  have hcolq : (col : ℚ) ≤ (cols : ℚ) - 1 := by
    have hlt : (col : ℚ) + 1 ≤ (cols : ℚ) := by exact_mod_cast hcol
    linarith
  have hrowq : (row : ℚ) ≤ (rows : ℚ) - 1 := by
    have hlt : (row : ℚ) + 1 ≤ (rows : ℚ) := by exact_mod_cast hrow
    linarith
  have hcol0 : (0 : ℚ) ≤ (col : ℚ) := Nat.cast_nonneg col
  have hrow0 : (0 : ℚ) ≤ (row : ℚ) := Nat.cast_nonneg row
  have hcgX : (0 : ℚ) ≤ cell + gX := add_nonneg hcell hgX
  have hcgY : (0 : ℚ) ≤ cell + gY := add_nonneg hcell hgY
  have hX1 : (col : ℚ) * (cell + gX) ≤ ((cols : ℚ) - 1) * (cell + gX) :=
    mul_le_mul_of_nonneg_right hcolq hcgX
  have hY1 : (row : ℚ) * (cell + gY) ≤ ((rows : ℚ) - 1) * (cell + gY) :=
    mul_le_mul_of_nonneg_right hrowq hcgY
  have hX2 : sx + ((cols : ℚ) - 1) * (cell + gX) + cell
      = sx + (cols : ℚ) * cell + ((cols : ℚ) - 1) * gX := by ring
  have hY2 : sy + ((rows : ℚ) - 1) * (cell + gY) + cell
      = sy + (rows : ℚ) * cell + ((rows : ℚ) - 1) * gY := by ring
  refine ⟨?_, ?_, ?_, ?_⟩
  · show 0 ≤ sx + (col : ℚ) * (cell + gX)
    have := mul_nonneg hcol0 hcgX
    linarith
  · show 0 ≤ sy + (row : ℚ) * (cell + gY)
    have := mul_nonneg hrow0 hcgY
    linarith
  · show sx + (col : ℚ) * (cell + gX) + cell ≤ cw
    linarith
  · show sy + (row : ℚ) * (cell + gY) + cell ≤ ch
    linarith

/-! ## Claim theorems -/

/-- C4: for the uniform-grid strategy, `startX` is exactly
`(canvasWidthPx - totalPhotosWidth) / 2`, and in exact rational
arithmetic the left margin `startX` equals the right margin
`canvasWidthPx - (startX + totalPhotosWidth)`; the analogous equalities
hold vertically. -/
theorem C4_uniform_centering (layout : Layout) (dpi : ℚ) (opts : Options) :
    startX layout dpi opts
        = ((calculateCanvasDimensions layout dpi).width - totalPhotosWidth layout dpi opts) / 2 ∧
    (calculateCanvasDimensions layout dpi).width
        - (startX layout dpi opts + totalPhotosWidth layout dpi opts)
        = startX layout dpi opts ∧
    startY layout dpi opts
        = ((calculateCanvasDimensions layout dpi).height - totalPhotosHeight layout dpi opts) / 2 ∧
    (calculateCanvasDimensions layout dpi).height
        - (startY layout dpi opts + totalPhotosHeight layout dpi opts)
        = startY layout dpi opts := by
  refine ⟨rfl, ?_, rfl, ?_⟩
  · unfold startX
    ring
  · unfold startY
    ring

/-- C7: `drawPhotoBorder` strokes with line width `max(0.5, dpi/150)` a
rectangle inset by half the line width, so the outer extent of the
stroke coincides exactly with the cell rectangle
`[x, x + size] × [y, y + size]` and never extends past the cell. -/
theorem C7_border_inside_cell (x y size dpi : ℚ) :
    borderLineWidth dpi = max (1/2) (dpi / 150) ∧
    strokeOuterRect (photoBorderPath x y size dpi) (borderLineWidth dpi)
      = { left := x, top := y, right := x + size, bottom := y + size } ∧
    x ≤ (strokeOuterRect (photoBorderPath x y size dpi) (borderLineWidth dpi)).left ∧
    (strokeOuterRect (photoBorderPath x y size dpi) (borderLineWidth dpi)).right ≤ x + size ∧
    y ≤ (strokeOuterRect (photoBorderPath x y size dpi) (borderLineWidth dpi)).top ∧
    (strokeOuterRect (photoBorderPath x y size dpi) (borderLineWidth dpi)).bottom ≤ y + size := by
  have h : strokeOuterRect (photoBorderPath x y size dpi) (borderLineWidth dpi)
      = { left := x, top := y, right := x + size, bottom := y + size } := by
    unfold strokeOuterRect photoBorderPath
    simp only [Rect.mk.injEq]
    refine ⟨by ring, by ring, by ring, by ring⟩
  refine ⟨rfl, h, ?_, ?_, ?_, ?_⟩ <;> rw [h]

/-- C8: `getLayout` returns the matching preset for each known key and
the designated default preset `4x6` for every unknown key; `getDPI`
maps `high` to 300 and `medium` to 200 and returns the high-quality
default 300 for every unknown label. -/
theorem C8_lookup_fallback (sizeKey quality : String) :
    getLayout "4x6" = layout4x6 ∧
    getLayout "5x7" = layout5x7 ∧
    getLayout "8x10" = layout8x10 ∧
    (sizeKey ≠ "4x6" → sizeKey ≠ "5x7" → sizeKey ≠ "8x10" →
      getLayout sizeKey = layout4x6) ∧
    getDPI "high" = 300 ∧
    getDPI "medium" = 200 ∧
    (quality ≠ "high" → quality ≠ "medium" → getDPI quality = 300) := by
  refine ⟨by decide, by decide, by decide, ?_, by decide, by decide, ?_⟩
  · intro h1 h2 h3
    have e1 : (sizeKey == "4x6") = false := beq_eq_false_iff_ne.mpr h1
    have e2 : (sizeKey == "5x7") = false := beq_eq_false_iff_ne.mpr h2
    have e3 : (sizeKey == "8x10") = false := beq_eq_false_iff_ne.mpr h3
    simp [getLayout, LAYOUTS, List.lookup, e1, e2, e3]
  · intro h1 h2
    have e1 : (quality == "high") = false := beq_eq_false_iff_ne.mpr h1
    have e2 : (quality == "medium") = false := beq_eq_false_iff_ne.mpr h2
    simp [getDPI, DPI_SETTINGS, List.lookup, e1, e2]

/-- Witness for C8 at the concrete unknown keys `weird` and `ultra`. -/
theorem C8_lookup_fallback_witness :
    getLayout "weird" = layout4x6 ∧ getDPI "ultra" = 300 :=
  ⟨(C8_lookup_fallback "weird" "ultra").2.2.2.1 (by decide) (by decide) (by decide),
   (C8_lookup_fallback "weird" "ultra").2.2.2.2.2.2 (by decide) (by decide)⟩

/-- C9: the part_009 guide overlay gives, for a 600x600 canvas in
2x2-inch mode, an ideal ellipse with radiusY = 180 and radiusX =
648/5 = 129.6, and for a 630x810 canvas in digital mode an ideal
radiusY = 1215/4 = 303.75 and an ideal crown Y of 81; in both modes the
min, ideal and max ellipses share the same center point for every
canvas size. -/
theorem C9_guide_overlay_values :
    (render2x2Guide 600 600).idealOval.radiusY = 180 ∧
    (render2x2Guide 600 600).idealOval.radiusX = 648/5 ∧
    (renderDigitalFormatGuide 630 810).idealOval.radiusY = 1215/4 ∧
    (renderDigitalFormatGuide 630 810).idealCrownY = 81 ∧
    (∀ w h : ℚ,
      (render2x2Guide w h).minOval.centerX = (render2x2Guide w h).idealOval.centerX ∧
      (render2x2Guide w h).minOval.centerY = (render2x2Guide w h).idealOval.centerY ∧
      (render2x2Guide w h).maxOval.centerX = (render2x2Guide w h).idealOval.centerX ∧
      (render2x2Guide w h).maxOval.centerY = (render2x2Guide w h).idealOval.centerY) ∧
    (∀ w h : ℚ,
      (renderDigitalFormatGuide w h).minOval.centerX
          = (renderDigitalFormatGuide w h).idealOval.centerX ∧
      (renderDigitalFormatGuide w h).minOval.centerY
          = (renderDigitalFormatGuide w h).idealOval.centerY ∧
      (renderDigitalFormatGuide w h).maxOval.centerX
          = (renderDigitalFormatGuide w h).idealOval.centerX ∧
      (renderDigitalFormatGuide w h).maxOval.centerY
          = (renderDigitalFormatGuide w h).idealOval.centerY) := by
  refine ⟨by norm_num [render2x2Guide], by norm_num [render2x2Guide],
    by norm_num [renderDigitalFormatGuide], by norm_num [renderDigitalFormatGuide],
    fun w h => ⟨rfl, rfl, rfl, rfl⟩, fun w h => ⟨rfl, rfl, rfl, rfl⟩⟩

/-- C1 (amended): every preset of the static layout table lacks the
customSpacing flag and is rendered by the uniform-grid strategy; for
every positive dpi and every gap configuration with nonnegative
gapSize, IF the occupied grid block fits the canvas (totalPhotosWidth
at most canvasWidthPx and totalPhotosHeight at most canvasHeightPx,
which holds in particular whenever the effective gap is zero), then
every emitted placement satisfies the bounds.  The fit condition cannot
be dropped: the 4x6 preset at dpi 300 with the gap enabled violates the
bounds, see the counterexample. -/
theorem C1_uniform_grid_bounds (layout : Layout) (dpi : ℚ) (opts : Options)
    (hmem : layout ∈ staticLayouts) (hdpi : 0 < dpi) (hgap : 0 ≤ opts.gapSize)
    (hfitW : totalPhotosWidth layout dpi opts ≤ (calculateCanvasDimensions layout dpi).width)
    (hfitH : totalPhotosHeight layout dpi opts ≤ (calculateCanvasDimensions layout dpi).height) :
    ∀ p ∈ createCompositePlacements layout dpi opts,
      0 ≤ p.x ∧ 0 ≤ p.y ∧
        p.x + p.sizePx ≤ (calculateCanvasDimensions layout dpi).width ∧
        p.y + p.sizePx ≤ (calculateCanvasDimensions layout dpi).height := by
  have hcs : layout.customSpacing = false := by
    simp only [staticLayouts, List.mem_cons, List.not_mem_nil, or_false] at hmem
    rcases hmem with rfl | rfl | rfl <;> rfl
  have hg : 0 ≤ gapSizePx opts dpi := by
    unfold gapSizePx
    cases h : opts.gapEnabled
    · simp
    · simpa using mul_nonneg hgap hdpi.le
  have hcell : 0 ≤ (calculateCanvasDimensions layout dpi).photoSize := by
    have h2 : (calculateCanvasDimensions layout dpi).photoSize = 2 * dpi := by
      simp [calculateCanvasDimensions, PHOTO_SIZE_INCHES]
    rw [h2]
    linarith
  have hsx : 0 ≤ startX layout dpi opts := by
    unfold startX
    linarith
  have hsy : 0 ≤ startY layout dpi opts := by
    unfold startY
    linarith
  rw [createCompositePlacements_uniform layout dpi opts hcs]
  apply gridPlacements_bounds _ _ _ _ _ _ _ _ _ hsx hsy hcell hg hg
  · unfold startX totalPhotosWidth
    unfold totalPhotosWidth at hfitW
    linarith
  · unfold startY totalPhotosHeight
    unfold totalPhotosHeight at hfitH
    linarith

/-- Witness for C1 at the 5x7 preset, dpi 300, gap enabled at 0.05 in:
the fit hypotheses hold (1215 at most 1500, 1830 at most 2100) and all
six placements respect the bounds. -/
theorem C1_uniform_grid_bounds_witness :
    totalPhotosWidth layout5x7 300 ⟨true, 1/20, false⟩
        ≤ (calculateCanvasDimensions layout5x7 300).width ∧
    totalPhotosHeight layout5x7 300 ⟨true, 1/20, false⟩
        ≤ (calculateCanvasDimensions layout5x7 300).height ∧
    ∀ p ∈ createCompositePlacements layout5x7 300 ⟨true, 1/20, false⟩,
      0 ≤ p.x ∧ 0 ≤ p.y ∧
        p.x + p.sizePx ≤ (calculateCanvasDimensions layout5x7 300).width ∧
        p.y + p.sizePx ≤ (calculateCanvasDimensions layout5x7 300).height :=
  ⟨by norm_num [totalPhotosWidth, calculateCanvasDimensions, gapSizePx,
      PHOTO_SIZE_INCHES, layout5x7],
   by norm_num [totalPhotosHeight, calculateCanvasDimensions, gapSizePx,
      PHOTO_SIZE_INCHES, layout5x7],
   C1_uniform_grid_bounds layout5x7 300 ⟨true, 1/20, false⟩
     (by simp [staticLayouts]) (by norm_num) (by norm_num)
     (by norm_num [totalPhotosWidth, calculateCanvasDimensions, gapSizePx,
        PHOTO_SIZE_INCHES, layout5x7])
     (by norm_num [totalPhotosHeight, calculateCanvasDimensions, gapSizePx,
        PHOTO_SIZE_INCHES, layout5x7])⟩

/-- Counterexample to C1 as stated: for the 4x6 preset at dpi 300 with
the gap enabled at the default 0.05 in (gapPx = 15), the composition
emits the placement (x = -15/2, y = -15, size 600), and -15/2 < 0
violates the bound 0 <= x. -/
theorem C1_counterexample :
    (⟨-15/2, -15, 600⟩ : Placement)
        ∈ createCompositePlacements layout4x6 300 ⟨true, 1/20, false⟩ ∧
    ¬ (0 ≤ (-15/2 : ℚ)) := by
  constructor
  · rw [createCompositePlacements_uniform layout4x6 300 _ rfl, mem_gridPlacements]
    refine ⟨0, by decide, 0, by decide, ?_⟩
    simp only [Placement.mk.injEq]
    norm_num [startX, startY, totalPhotosWidth, totalPhotosHeight,
      calculateCanvasDimensions, gapSizePx, PHOTO_SIZE_INCHES, layout4x6]
  · norm_num

/-- C2 (amended): a layout without the customSpacing flag is always
rendered by the uniform-grid strategy, whatever its spacingType says
(its placements agree with those of the same layout with spacingType
None); but a layout flagged customSpacing whose spacingType matches none
of the three recognized strategy names emits NO placements (the branch
chain has no default case), rather than falling back to the uniform
grid.  In neither case does the routine fail. -/
theorem C2_spacing_fallback (layout : Layout) (dpi : ℚ) (opts : Options) :
    (layout.customSpacing = false →
      createCompositePlacements layout dpi opts
          = createCompositePlacements { layout with spacingType := none } dpi opts ∧
      createCompositePlacements layout dpi opts
          = gridPlacements layout.cols layout.rows
              (startX layout dpi opts) (startY layout dpi opts)
              ((calculateCanvasDimensions layout dpi).photoSize)
              (gapSizePx opts dpi) (gapSizePx opts dpi)) ∧
    (layout.customSpacing = true →
      layout.spacingType ≠ some "vertical-apart" →
      layout.spacingType ≠ some "vertical-centered" →
      layout.spacingType ≠ some "grid-aligned" →
      createCompositePlacements layout dpi opts = []) := by
  constructor
  · intro hcs
    have hcs2 : ({ layout with spacingType := none } : Layout).customSpacing = false := hcs
    refine ⟨?_, createCompositePlacements_uniform layout dpi opts hcs⟩
    rw [createCompositePlacements_uniform layout dpi opts hcs,
        createCompositePlacements_uniform _ dpi opts hcs2]
    rfl
  · intro hcs h1 h2 h3
    rw [createCompositePlacements_custom layout dpi opts hcs]
    exact customSpacing_unrecognized layout dpi _ _ h1 h2 h3

/-- Witness for C2 at the concrete misconfigured layout. -/
theorem C2_spacing_fallback_witness :
    createCompositePlacements bogusLayout 300 optsDefault = [] :=
  (C2_spacing_fallback bogusLayout 300 optsDefault).2 rfl
    (by decide) (by decide) (by decide)

/-- Counterexample to C2 as stated: the customSpacing layout with
spacingType bogus emits no placements at all, while the corresponding
layout rendered by the uniform-grid strategy emits six; so an
unrecognized spacingType on a customSpacing layout does NOT fall back
to the uniform grid. -/
theorem C2_counterexample :
    createCompositePlacements bogusLayout 300 optsDefault = [] ∧
    createCompositePlacements
        { bogusLayout with customSpacing := false, spacingType := none }
        300 optsDefault ≠ [] := by
  constructor
  · rw [createCompositePlacements_custom bogusLayout 300 optsDefault rfl]
    exact customSpacing_unrecognized bogusLayout 300 _ _
      (by decide) (by decide) (by decide)
  · rw [createCompositePlacements_uniform _ 300 optsDefault rfl]
    apply List.length_pos.mp
    rw [gridPlacements_length]
    decide

/-- C3 (amended): the number of placements emitted is rows * cols for
the uniform, vertical-centered and grid-aligned strategies and rows for
the vertical-apart strategy; the photoCount field never influences the
count.  For the presets of the static table (which satisfy photos =
cols * rows and use the uniform path) the count does equal
photoCount. -/
theorem C3_placement_count (layout : Layout) (dpi : ℚ) (opts : Options) :
    (layout.customSpacing = false →
        (createCompositePlacements layout dpi opts).length = layout.rows * layout.cols) ∧
    (layout.customSpacing = true → layout.spacingType = some "vertical-apart" →
        (createCompositePlacements layout dpi opts).length = layout.rows) ∧
    (layout.customSpacing = true → layout.spacingType = some "vertical-centered" →
        (createCompositePlacements layout dpi opts).length = layout.rows * layout.cols) ∧
    (layout.customSpacing = true → layout.spacingType = some "grid-aligned" →
        (createCompositePlacements layout dpi opts).length = layout.rows * layout.cols) ∧
    (layout ∈ staticLayouts →
        (createCompositePlacements layout dpi opts).length = layout.photos) := by
  have huni : layout.customSpacing = false →
      (createCompositePlacements layout dpi opts).length = layout.rows * layout.cols := by
    intro hcs
    rw [createCompositePlacements_uniform layout dpi opts hcs, gridPlacements_length]
  refine ⟨huni, ?_, ?_, ?_, ?_⟩
  · intro hcs hst
    rw [createCompositePlacements_custom layout dpi opts hcs,
        customSpacing_vertical_apart layout dpi _ _ hst,
        List.length_map, List.length_range]
  · intro hcs hst
    rw [createCompositePlacements_custom layout dpi opts hcs,
        customSpacing_vertical_centered layout dpi _ _ hst, gridPlacements_length]
  · intro hcs hst
    rw [createCompositePlacements_custom layout dpi opts hcs,
        customSpacing_grid_aligned layout dpi _ _ hst, gridPlacements_length]
  · intro hmem
    simp only [staticLayouts, List.mem_cons, List.not_mem_nil, or_false] at hmem
    rcases hmem with rfl | rfl | rfl <;> rw [huni rfl] <;> rfl

/-- Witness for C3 at the 5x7 preset: six placements, matching its
photos field. -/
theorem C3_placement_count_witness :
    (createCompositePlacements layout5x7 300 optsDefault).length = layout5x7.photos :=
  (C3_placement_count layout5x7 300 optsDefault).2.2.2.2 (by simp [staticLayouts])

/-- Counterexample to C3 as stated: a customSpacing grid-aligned layout
whose photos field is 5 while cols * rows = 6 emits 6 placements, not
photoCount = 5. -/
theorem C3_counterexample :
    (createCompositePlacements mismatchLayout 300 optsDefault).length = 6 ∧
    mismatchLayout.photos = 5 ∧
    (createCompositePlacements mismatchLayout 300 optsDefault).length
        ≠ mismatchLayout.photos := by
  have h6 : (createCompositePlacements mismatchLayout 300 optsDefault).length = 6 := by
    rw [createCompositePlacements_custom mismatchLayout 300 optsDefault rfl,
        customSpacing_grid_aligned mismatchLayout 300 _ _ rfl, gridPlacements_length]
    rfl
  refine ⟨h6, rfl, ?_⟩
  rw [h6]
  decide

/-- C5 (amended): for the vertical-centered strategy with cols = 2 the
block is centered horizontally (left margin equals right margin) for
every gap; vertically the code computes the occupied height with a
single gap term (rows * cell + gap), so the bottom margin equals
startY + (2 - rows) * gapPx in general, and the top margin equals the
bottom margin exactly for rows = 2 (or a zero gap) — not for every
number of rows as claimed. -/
theorem C5_vertical_centered_margins (layout : Layout) (dpi gap : ℚ)
    (hc : layout.cols = 2) :
    layout.width * dpi
        - ((vcStartX layout dpi (PHOTO_SIZE_INCHES * dpi) gap
              + ((layout.cols : ℚ) - 1) * (PHOTO_SIZE_INCHES * dpi + gap))
            + PHOTO_SIZE_INCHES * dpi)
        = vcStartX layout dpi (PHOTO_SIZE_INCHES * dpi) gap ∧
    layout.height * dpi
        - ((vcStartY layout dpi (PHOTO_SIZE_INCHES * dpi) gap
              + ((layout.rows : ℚ) - 1) * (PHOTO_SIZE_INCHES * dpi + gap))
            + PHOTO_SIZE_INCHES * dpi)
        = vcStartY layout dpi (PHOTO_SIZE_INCHES * dpi) gap
            + (2 - (layout.rows : ℚ)) * gap ∧
    (layout.rows = 2 →
      layout.height * dpi
          - ((vcStartY layout dpi (PHOTO_SIZE_INCHES * dpi) gap
                + ((layout.rows : ℚ) - 1) * (PHOTO_SIZE_INCHES * dpi + gap))
              + PHOTO_SIZE_INCHES * dpi)
          = vcStartY layout dpi (PHOTO_SIZE_INCHES * dpi) gap) := by
  refine ⟨?_, ?_, ?_⟩
  · unfold vcStartX vcTotalWidth
    rw [hc]
    push_cast
    ring
  · unfold vcStartY vcTotalHeight
    ring
  · intro hr
    unfold vcStartY vcTotalHeight
    rw [hr]
    push_cast
    ring

/-- Witness for C5 at a 2-column 2-row vertical-centered layout at dpi
300 with gapPx 15: top margin equals bottom margin. -/
theorem C5_vertical_centered_margins_witness :
    vcLayout2.height * 300
        - ((vcStartY vcLayout2 300 (PHOTO_SIZE_INCHES * 300) 15
              + ((vcLayout2.rows : ℚ) - 1) * (PHOTO_SIZE_INCHES * 300 + 15))
            + PHOTO_SIZE_INCHES * 300)
        = vcStartY vcLayout2 300 (PHOTO_SIZE_INCHES * 300) 15 :=
  (C5_vertical_centered_margins vcLayout2 300 15 rfl).2.2 rfl

/-- Counterexample to C5 as stated: vertical-centered layout with 2
columns and N = 3 rows at dpi 300 and gapPx 15: the last-row placement
has y = 3045/2, giving bottom margin 555/2, while the top margin startY
is 585/2; the two margins differ, so the 2 x N block is not vertically
centered for every N. -/
theorem C5_counterexample :
    (⟨1215/2, 3045/2, 600⟩ : Placement)
        ∈ createCompositePlacements vcLayout3 300 ⟨true, 1/20, false⟩ ∧
    vcStartY vcLayout3 300 600 15 = 585/2 ∧
    vcLayout3.height * 300 - ((3045 : ℚ)/2 + 600) = 555/2 ∧
    ((555 : ℚ)/2 ≠ 585/2) := by
  refine ⟨?_, ?_, ?_, by norm_num⟩
  · rw [createCompositePlacements_custom vcLayout3 300 _ rfl,
        customSpacing_vertical_centered vcLayout3 300 _ _ rfl,
        mem_gridPlacements]
    refine ⟨2, by decide, 1, by decide, ?_⟩
    simp only [Placement.mk.injEq]
    norm_num [vcStartX, vcStartY, vcTotalWidth, vcTotalHeight,
      calculateCanvasDimensions, gapSizePx, PHOTO_SIZE_INCHES, vcLayout3]
  · norm_num [vcStartY, vcTotalHeight, vcLayout3]
  · norm_num [vcLayout3]

/-- C6: doubling the dpi exactly doubles the canvas width and height,
the cell size, and every emitted placement (x, y, sizePx), under every
spacing strategy: the geometry is linear in the dpi. -/
theorem C6_dpi_scaling (layout : Layout) (dpi : ℚ) (opts : Options) :
    (calculateCanvasDimensions layout (2 * dpi)).width
        = 2 * (calculateCanvasDimensions layout dpi).width ∧
    (calculateCanvasDimensions layout (2 * dpi)).height
        = 2 * (calculateCanvasDimensions layout dpi).height ∧
    (calculateCanvasDimensions layout (2 * dpi)).photoSize
        = 2 * (calculateCanvasDimensions layout dpi).photoSize ∧
    createCompositePlacements layout (2 * dpi) opts
      = (createCompositePlacements layout dpi opts).map (scalePlacement 2) := by
  have hcell : (calculateCanvasDimensions layout (2 * dpi)).photoSize
      = 2 * (calculateCanvasDimensions layout dpi).photoSize := by
    simp only [calculateCanvasDimensions]
    ring
  have hgap := gapSizePx_double opts dpi
  refine ⟨by simp only [calculateCanvasDimensions]; ring,
          by simp only [calculateCanvasDimensions]; ring, hcell, ?_⟩
  cases hcs : layout.customSpacing
  case false =>
    rw [createCompositePlacements_uniform layout (2 * dpi) opts hcs,
        createCompositePlacements_uniform layout dpi opts hcs]
    have hsx : startX layout (2 * dpi) opts = 2 * startX layout dpi opts := by
      unfold startX totalPhotosWidth
      simp only [calculateCanvasDimensions]
      rw [hgap]
      ring
    have hsy : startY layout (2 * dpi) opts = 2 * startY layout dpi opts := by
      unfold startY totalPhotosHeight
      simp only [calculateCanvasDimensions]
      rw [hgap]
      ring
    rw [hsx, hsy, hcell, hgap, gridPlacements_scale]
  case true =>
    rw [createCompositePlacements_custom layout (2 * dpi) opts hcs,
        createCompositePlacements_custom layout dpi opts hcs]
    by_cases h1 : layout.spacingType = some "vertical-apart"
    · rw [customSpacing_vertical_apart layout (2 * dpi) _ _ h1,
          customSpacing_vertical_apart layout dpi _ _ h1, List.map_map]
      congr 1
      funext row
      simp only [Function.comp_apply, scalePlacement, calculateCanvasDimensions,
        PHOTO_SIZE_INCHES, Placement.mk.injEq]
      refine ⟨by ring, by ring, by ring_nf⟩
    · by_cases h2 : layout.spacingType = some "vertical-centered"
      · rw [customSpacing_vertical_centered layout (2 * dpi) _ _ h2,
            customSpacing_vertical_centered layout dpi _ _ h2]
        have hvx : vcStartX layout (2 * dpi)
              ((calculateCanvasDimensions layout (2 * dpi)).photoSize)
              (gapSizePx opts (2 * dpi))
            = 2 * vcStartX layout dpi
                ((calculateCanvasDimensions layout dpi).photoSize)
                (gapSizePx opts dpi) := by
          unfold vcStartX vcTotalWidth
          simp only [calculateCanvasDimensions]
          rw [hgap]
          ring
        have hvy : vcStartY layout (2 * dpi)
              ((calculateCanvasDimensions layout (2 * dpi)).photoSize)
              (gapSizePx opts (2 * dpi))
            = 2 * vcStartY layout dpi
                ((calculateCanvasDimensions layout dpi).photoSize)
                (gapSizePx opts dpi) := by
          unfold vcStartY vcTotalHeight
          simp only [calculateCanvasDimensions]
          rw [hgap]
          ring
        rw [hvx, hvy, hcell, hgap, gridPlacements_scale]
      · by_cases h3 : layout.spacingType = some "grid-aligned"
        · rw [customSpacing_grid_aligned layout (2 * dpi) _ _ h3,
              customSpacing_grid_aligned layout dpi _ _ h3]
          have hm4 : (1/4 : ℚ) * (2 * dpi) = 2 * ((1/4 : ℚ) * dpi) := by ring
          have hm2 : (1/2 : ℚ) * (2 * dpi) = 2 * ((1/2 : ℚ) * dpi) := by ring
          rw [hm4, hm2, hcell, gridPlacements_scale]
        · rw [customSpacing_unrecognized layout (2 * dpi) _ _ h1 h2 h3,
              customSpacing_unrecognized layout dpi _ _ h1 h2 h3]
          rfl

/-- C10: in the guidelines-manager.js variant all three face ovals are
drawn with center x-coordinate idealCenterY = 19/40 of the canvas size
(0.475 x canvasSize, i.e. 285 for a 600-pixel canvas) rather than the
horizontal canvas center canvasSize / 2, while the part_009 variant
draws them at canvasWidth / 2; for every nonzero canvas size the two
variants place the oval at different horizontal positions. -/
theorem C10_face_oval_center_divergence (s : ℚ) (hs : s ≠ 0) :
    (renderModulesFaceGuide s).minOval.centerX = 19/40 * s ∧
    (renderModulesFaceGuide s).idealOval.centerX = 19/40 * s ∧
    (renderModulesFaceGuide s).maxOval.centerX = 19/40 * s ∧
    (render2x2Guide s s).minOval.centerX = s / 2 ∧
    (render2x2Guide s s).idealOval.centerX = s / 2 ∧
    (render2x2Guide s s).maxOval.centerX = s / 2 ∧
    (renderModulesFaceGuide s).idealOval.centerX
        ≠ (render2x2Guide s s).idealOval.centerX ∧
    (renderModulesFaceGuide 600).idealOval.centerX = 285 := by
  have hm : (renderModulesFaceGuide s).idealOval.centerX = 19/40 * s := by
    simp only [renderModulesFaceGuide]
    ring
  have hm1 : (renderModulesFaceGuide s).minOval.centerX = 19/40 * s := by
    simp only [renderModulesFaceGuide]
    ring
  have hm2 : (renderModulesFaceGuide s).maxOval.centerX = 19/40 * s := by
    simp only [renderModulesFaceGuide]
    ring
  have hp : (render2x2Guide s s).idealOval.centerX = s / 2 := by
    simp only [render2x2Guide]
  have hp1 : (render2x2Guide s s).minOval.centerX = s / 2 := by
    simp only [render2x2Guide]
  have hp2 : (render2x2Guide s s).maxOval.centerX = s / 2 := by
    simp only [render2x2Guide]
  refine ⟨hm1, hm, hm2, hp1, hp, hp2, ?_, by norm_num [renderModulesFaceGuide]⟩
  rw [hm, hp]
  intro hEq
  apply hs
  linarith

/-- Witness for C10 at canvas size 600. -/
theorem C10_face_oval_center_divergence_witness :
    (renderModulesFaceGuide 600).idealOval.centerX
        ≠ (render2x2Guide 600 600).idealOval.centerX :=
  (C10_face_oval_center_divergence 600 (by norm_num)).2.2.2.2.2.2.1

end PassportPhotoSheet
